import Mathlib

/-!
Shallow embedding of `src/import_json.py` (a Telegram chat-export replayer)
and proofs about its message-replay pipeline: the rich-text formatter
(`format_structured_text`), the reply resolver (`get_replied_message_info`),
the classifier/dispatcher (`send_universal_message`) and the batch loop
(`process_messages`).

Python dictionaries are modelled as structures with `Option` fields
(`none` = key absent); `dict.get(k, d)` becomes `Option.getD`.  Python
truthiness of strings/ints is modelled explicitly (`""` and `0` are falsy).
The Telegram API and the file system are an explicit environment `Env`;
exceptions raised by API calls are an oracle `Env.outcome` indexed by a
global call counter, and Python `try`/`except` becomes explicit propagation
of an `Option ApiError`.  Side effects (API calls, sleeps, error-log writes)
are recorded in an event trace.
-/

/-- One element of a structured `text` list: either a bare string, or a
formatting dictionary with keys `type` (may be absent), `text` (absent
folded to `""`, as `element.get('text', '')` does) and `href` (absent folded
to `""`, as `element.get('href', '')` does). -/
inductive TextElem
  | str (s : String)
  | span (type_ : Option String) (text : String) (href : String)
  deriving DecidableEq, Repr

/-- The dynamic shape of a message's `text` field: a plain string or a list
of mixed strings and formatting dictionaries. -/
inductive TextValue
  | plain (s : String)
  | spans (l : List TextElem)
  deriving DecidableEq, Repr

/-- A `poll` dictionary: `question`, the `text` of each entry of `answers`,
`total_voters`, `closed`. -/
structure Poll where
  question : Option String
  answers : List String
  total_voters : Option Nat
  closed : Option Bool
  deriving DecidableEq, Repr

/-- A `location` dictionary.  The coordinate payload is passed through the
code untouched (only `location.get('latitude')` / `('longitude')` is read
and handed to the API), so its numeric type is opaque; `Int` stands in. -/
structure GeoLocation where
  latitude : Option Int
  longitude : Option Int
  deriving DecidableEq, Repr

/-- One export record, with the fields `send_universal_message` reads.
`none` models an absent key.  Every record has an `id` (the spec's data
model makes the identifier required and unique). -/
structure ExportMessage where
  id : Int
  from_ : Option String
  forwarded_from : Option String
  reply_to_message_id : Option Int
  text : Option TextValue
  media_type : Option String
  file : Option String
  photo : Option String
  poll : Option Poll
  duration_seconds : Option Nat
  width : Option Nat
  height : Option Nat
  location : Option GeoLocation
  date : Option String
  deriving DecidableEq, Repr

/-- A record with every optional field absent, for building concrete
examples. -/
def emptyMsg : ExportMessage :=
  ⟨0, none, none, none, none, none, none, none, none, none, none, none, none, none⟩

/-- Python truthiness of an optional string: absent and `""` are falsy. -/
def truthyOptStr : Option String → Bool
  | none => false
  | some s => s != ""

/-- Python truthiness of an optional integer: absent and `0` are falsy. -/
def truthyOptInt : Option Int → Bool
  | none => false
  | some n => n != 0

/-- The body of the loop in `format_structured_text` (lines 40-63): append
to the accumulator the element rendered by the `if`/`elif` chain on its
`type`. -/
def formatStep (formatted_text : String) (element : TextElem) : String :=
  match element with
  | TextElem.str s => formatted_text ++ s
  | TextElem.span formatting_type text_content href =>
    match formatting_type with
    | some "bold" => formatted_text ++ ("*" ++ text_content ++ "*")
    | some "italic" => formatted_text ++ ("_" ++ text_content ++ "_")
    | some "underline" => formatted_text ++ ("__" ++ text_content ++ "__")
    | some "strikethrough" => formatted_text ++ ("~" ++ text_content ++ "~")
    | some "code" => formatted_text ++ ("`" ++ text_content ++ "`")
    | some "link" => formatted_text ++ ("[" ++ text_content ++ "](" ++ href ++ ")")
    | some "mention" => formatted_text ++ text_content
    | _ => formatted_text ++ text_content

/-- Embedding of `format_structured_text` (lines 30-65): a plain string is
returned unchanged; a list is folded left-to-right into an accumulator
starting from `""`. -/
def format_structured_text (text_list : TextValue) : String :=
  match text_list with
  | TextValue.plain s => s
  | TextValue.spans l => l.foldl formatStep ""

/-- The per-element rendering as the spec describes it, for comparison with
the code's accumulator loop: bold wrapped in `*`, italic in `_`, underline
in `__`, strikethrough in `~`, code in backticks, link as bracketed text
followed by parenthesized href, mention and unrecognized kinds unwrapped. -/
def renderElemSpec : TextElem → String
  | TextElem.str s => s
  | TextElem.span (some "bold") t _ => "*" ++ t ++ "*"
  | TextElem.span (some "italic") t _ => "_" ++ t ++ "_"
  | TextElem.span (some "underline") t _ => "__" ++ t ++ "__"
  | TextElem.span (some "strikethrough") t _ => "~" ++ t ++ "~"
  | TextElem.span (some "code") t _ => "`" ++ t ++ "`"
  | TextElem.span (some "link") t h => "[" ++ t ++ "](" ++ h ++ ")"
  | TextElem.span (some "mention") t _ => t
  | TextElem.span _ t _ => t

/-- The spec's left-to-right concatenation of per-element renders. -/
def renderAllSpec : List TextElem → String
  | [] => ""
  | e :: rest => renderElemSpec e ++ renderAllSpec rest

theorem formatStep_eq (acc : String) (e : TextElem) :
    formatStep acc e = acc ++ renderElemSpec e := by
  cases e with
  | str s => rfl
  | span t txt h =>
    cases t with
    | none => rfl
    | some k =>
      unfold formatStep renderElemSpec
      split <;> split <;> simp_all

theorem format_foldl_acc (l : List TextElem) :
    ∀ acc : String, l.foldl formatStep acc = acc ++ renderAllSpec l := by
  induction l with
  | nil => intro acc; simp [renderAllSpec]
  | cons e rest ih =>
    intro acc
    rw [List.foldl_cons, formatStep_eq, ih, renderAllSpec, ← String.append_assoc]

/-- C8: the Rich-Text Formatter passes a plain string through unchanged;
a span sequence formats to the left-to-right concatenation in which
literal strings contribute verbatim and each tagged span renders per its
kind (bold `*`, italic `_`, underline `__`, strikethrough `~`, code
backticks, link `[text](href)`, mention/unknown unwrapped); and the
sequence `[bold "x", " and ", italic "y"]` formats to `*x* and _y_`. -/
theorem c8_formatter :
    (∀ s : String, format_structured_text (TextValue.plain s) = s)
    ∧ (∀ l : List TextElem,
        format_structured_text (TextValue.spans l) = renderAllSpec l)
    ∧ format_structured_text (TextValue.spans
        [TextElem.span (some "bold") "x" "", TextElem.str " and ",
         TextElem.span (some "italic") "y" ""]) = "*x* and _y_" := by
  refine ⟨fun s => rfl, fun l => ?_, by decide⟩
  show _ = renderAllSpec l
  have h := format_foldl_acc l ""
  simpa [format_structured_text] using h

/-- Embedding of `get_replied_message_info` (lines 67-75): linear scan for
the first message whose `id` equals `reply_to_message_id`; on a hit return
`(msg.get('from', 'Unknown Sender'), msg.get('text', ''))`, otherwise the
pair `(None, None)`, modelled as `none`. -/
def get_replied_message_info (messages : List ExportMessage)
    (reply_to_message_id : Int) : Option (String × TextValue) :=
  match messages with
  | [] => none
  | msg :: rest =>
    if msg.id == reply_to_message_id then
      some (msg.from_.getD "Unknown Sender", msg.text.getD (TextValue.plain ""))
    else get_replied_message_info rest reply_to_message_id

/-- Python `str()` of the raw `text` value as interpolated at line 149.  A
plain string renders as itself; a structured list renders through Python's
list `repr`, modelled element-wise (the exact repr text of the span case is
not load-bearing for any claim; the structure normalizes the dict's keys to
`type`/`text`/`href`). -/
def strOfTextValue : TextValue → String
  | TextValue.plain s => s
  | TextValue.spans l =>
    "[" ++ String.intercalate ", " (l.map (fun e =>
      match e with
      | TextElem.str s => "'" ++ s ++ "'"
      | TextElem.span t txt h =>
        "\x7b'type': " ++ (match t with
          | none => "None"
          | some k => "'" ++ k ++ "'") ++
        ", 'text': '" ++ txt ++ "', 'href': '" ++ h ++ "'\x7d")) ++ "]"

/-- Embedding of lines 146-151: the reply annotation block prepended to the
formatted text when `reply_to_message_id` is truthy.  Python's
`if replied_sender:` is the truthiness test on the returned sender. -/
def replyHeader (all_messages : List ExportMessage) (rid : Int) : String :=
  match get_replied_message_info all_messages rid with
  | some (replied_sender, replied_text) =>
    if replied_sender != "" then
      "This message is a reply to " ++ replied_sender ++ ": " ++
        strOfTextValue replied_text ++ "\n\n"
    else "This message is a reply to another message.\n\n"
  | none => "This message is a reply to another message.\n\n"

/-- Embedding of lines 122-154: the fully composed outbound text
(`formatted_message`): format the text field, prepend the forward
annotation if `forwarded_from` is truthy, prepend the reply annotation if
`reply_to_message_id` is truthy, then place the `Message from {sender}` /
date header before the whole block. -/
def composedMessage (message : ExportMessage)
    (all_messages : List ExportMessage) : String :=
  let sender := message.from_.getD "Unknown Sender"
  let formatted0 := format_structured_text (message.text.getD (TextValue.plain ""))
  let formatted1 :=
    if truthyOptStr message.forwarded_from then
      "Forwarded from " ++ message.forwarded_from.getD "" ++ ":\n\n" ++ formatted0
    else formatted0
  let formatted2 :=
    if truthyOptInt message.reply_to_message_id then
      replyHeader all_messages (message.reply_to_message_id.getD 0) ++ formatted1
    else formatted1
  "Message from " ++ sender ++ "\n📅 Sent on: " ++
    message.date.getD "Unknown Date" ++ "\n" ++ formatted2

/-- The error raised by an API call, mirroring the exception taxonomy the
code distinguishes: `telegram.error.RetryAfter` (with its wait in whole
seconds, as `int(e.retry_after)` truncates it), `telegram.error.TimedOut`,
and every other exception, carrying its text. -/
inductive ApiError
  | retryAfter (seconds : Nat)
  | timedOut
  | other (text : String)
  deriving DecidableEq, Repr

/-- Outcome of one awaited API call: it returns, or raises an error. -/
inductive ApiOutcome
  | ok
  | exn (e : ApiError)

/-- One outbound Telegram API call with the payload the code passes. -/
inductive ApiCall
  | sendPhoto (photo : String) (caption : String)
  | sendVideo (video : Option String) (caption : String) (duration : Nat)
  | sendVoice (voice : String) (duration : Nat) (caption : String)
  | sendSticker (sticker : String)
  | sendPoll (question : String) (options : List String) (is_anonymous : Bool)
  | sendMessage (text : String) (parse_mode : Option String)
  | sendLocation (latitude longitude : Option Int)
  deriving DecidableEq, Repr

/-- An observable side effect of the pipeline: an attempted API call, a
backoff sleep (lines 101 and 109), the fixed inter-message sleep
(line 115), or an error-log line `Error with message {id}: ...`
(`log_error`, lines 77-82). -/
inductive Event
  | apiCall (c : ApiCall)
  | sleep (seconds : Nat)
  | interSleep (seconds : Nat)
  | logError (id : Int) (e : ApiError)
  deriving DecidableEq, Repr

/-- The external world: the account tier flag (`TELEGRAM_PREMIUM`), the
file system (`os.path.exists` / `os.path.getsize`, size in bytes), and an
oracle giving the outcome of the k-th API call made during the run. -/
structure Env where
  premium : Bool
  fileExists : String → Bool
  fileSizeBytes : String → Nat
  outcome : Nat → ApiOutcome

/-- Line 23: `MAX_FILE_SIZE_MB = 2048 if TELEGRAM_PREMIUM else 50`. -/
def MAX_FILE_SIZE_MB (premium : Bool) : Nat := if premium then 2048 else 50

/-- Lines 157-159: the pre-dispatch size guard.  It reads the `file` field
only; the guard fires when `file` is truthy, the file exists, and
`getsize(file)/(1024*1024) > MAX_FILE_SIZE_MB`.  Division by the exact
power of two 2^20 is exact, so the float comparison equals the integer
comparison `bytes > MAX_FILE_SIZE_MB * 1048576`. -/
def sizeSkip (env : Env) (message : ExportMessage) : Bool :=
  match message.file with
  | none => false
  | some f =>
    f != "" && env.fileExists f &&
      decide (env.fileSizeBytes f > MAX_FILE_SIZE_MB env.premium * 1048576)

/-- Line 196: the poll status line,
`Poll Status: {status}, Total Voters: {total_voters}`. -/
def pollStatusText (p : Poll) : String :=
  "Poll Status: " ++ (if p.closed.getD false then "Closed" else "Open") ++
    ", Total Voters: " ++ toString (p.total_voters.getD 0)

/-- Embedding of the `if`/`elif` chain in the `try` block (lines 164-208):
the list of API calls the chosen branch makes, in order.  Exactly the poll
branch makes two calls (`send_poll`, then the status `send_message`); every
other branch makes one.  The final `send_message` passes
`parse_mode=ParseMode.MARKDOWN`; the poll status one passes none. -/
def classify (message : ExportMessage) (formatted_message : String) : List ApiCall :=
  if truthyOptStr message.photo then
    [ApiCall.sendPhoto (message.photo.getD "") formatted_message]
  else if message.media_type == some "animation" || message.media_type == some "video_file" then
    [ApiCall.sendVideo message.file formatted_message (message.duration_seconds.getD 0)]
  else if message.media_type == some "voice_message" && truthyOptStr message.file then
    [ApiCall.sendVoice (message.file.getD "") (message.duration_seconds.getD 0) formatted_message]
  else if message.media_type == some "sticker" && truthyOptStr message.file then
    [ApiCall.sendSticker (message.file.getD "")]
  else
    match message.poll with
    | some p =>
      [ApiCall.sendPoll (p.question.getD "No question") p.answers true,
       ApiCall.sendMessage (pollStatusText p) none]
    | none =>
      match message.location with
      | some loc => [ApiCall.sendLocation loc.latitude loc.longitude]
      | none => [ApiCall.sendMessage formatted_message (some "Markdown")]

/-- Result of running the calls of the chosen branch: the trace of calls
actually made, the next global call index, and the first error raised (the
branch stops at it, as the exception aborts the `with`/`await` block). -/
structure CallsResult where
  events : List Event
  next : Nat
  raised : Option ApiError
  deriving Repr

/-- Run the branch's calls in order against the oracle, stopping at the
first one that raises. -/
def attemptCalls (env : Env) (k : Nat) : List ApiCall → CallsResult
  | [] => ⟨[], k, none⟩
  | c :: rest =>
    match env.outcome k with
    | ApiOutcome.ok =>
      let r := attemptCalls env (k + 1) rest
      ⟨Event.apiCall c :: r.events, r.next, r.raised⟩
    | ApiOutcome.exn e => ⟨[Event.apiCall c], k + 1, some e⟩

/-- Result of one `send_universal_message` invocation: its event trace, the
next call index, and the exception propagating out of the function.  The
`try`/`except Exception` at lines 163-213 catches every exception raised in
the dispatch block, so `exc` is `none` on every path of the source. -/
structure SendResult where
  events : List Event
  next : Nat
  exc : Option ApiError
  deriving Repr

/-- Embedding of `send_universal_message` (lines 117-213): compose the
text, apply the pre-dispatch size guard (which returns with no API call and
no log), then run the classified branch under the catch-all handler, which
logs any raised error against the message's `id` and returns normally. -/
def send_universal_message (env : Env) (message : ExportMessage)
    (all_messages : List ExportMessage) (k : Nat) : SendResult :=
  if sizeSkip env message then ⟨[], k, none⟩
  else
    match attemptCalls env k (classify message (composedMessage message all_messages)) with
    | CallsResult.mk evs next none => ⟨evs, next, none⟩
    | CallsResult.mk evs next (some e) =>
      ⟨evs ++ [Event.logError message.id e], next, none⟩

/-- Embedding of the loop body of `process_messages` (lines 90-115) as a
recursion over the remaining messages.  `all` is the full collection (the
source passes the whole `messages` list to `send_universal_message` for
reply resolution), `retries` the mutable counter, `k` the global call
index.  The `except` branches translate the source faithfully: a
`RetryAfter`/`TimedOut` escaping the dispatcher increments the counter and
then `continue`s — which in a Python `for` loop advances to the NEXT
message (skipping the line-115 sleep) rather than re-entering the current
one; a generic exception logs and falls through to the line-115 sleep
without touching the counter; a normal return resets the counter to zero
and falls through to the sleep. -/
def processLoop (env : Env) (all : List ExportMessage) (delay max_retries : Nat) :
    List ExportMessage → Nat → Nat → List Event × Nat
  | [], _, k => ([], k)
  | message :: rest, retries, k =>
    match send_universal_message env message all k with
    | SendResult.mk evs next none =>
      (evs ++ Event.interSleep delay ::
          (processLoop env all delay max_retries rest 0 next).1,
        (processLoop env all delay max_retries rest 0 next).2)
    | SendResult.mk evs next (some (ApiError.retryAfter retry_after)) =>
      if retries + 1 > max_retries then
        (evs ++ (processLoop env all delay max_retries rest (retries + 1) next).1,
          (processLoop env all delay max_retries rest (retries + 1) next).2)
      else
        (evs ++ Event.sleep retry_after ::
            (processLoop env all delay max_retries rest (retries + 1) next).1,
          (processLoop env all delay max_retries rest (retries + 1) next).2)
    | SendResult.mk evs next (some ApiError.timedOut) =>
      if retries + 1 > max_retries then
        (evs ++ (processLoop env all delay max_retries rest (retries + 1) next).1,
          (processLoop env all delay max_retries rest (retries + 1) next).2)
      else
        (evs ++ Event.sleep (delay * (retries + 1)) ::
            (processLoop env all delay max_retries rest (retries + 1) next).1,
          (processLoop env all delay max_retries rest (retries + 1) next).2)
    | SendResult.mk evs next (some (ApiError.other e)) =>
      (evs ++ Event.logError message.id (ApiError.other e) ::
          Event.interSleep delay ::
          (processLoop env all delay max_retries rest retries next).1,
        (processLoop env all delay max_retries rest retries next).2)

/-- Embedding of `process_messages(messages, delay, max_retries)`
(lines 84-115): start with `retries = 0` and call index 0, iterating the
collection against itself.  The source defaults are `delay=1`,
`max_retries=5`. -/
def process_messages (env : Env) (messages : List ExportMessage)
    (delay max_retries : Nat) : List Event × Nat :=
  processLoop env messages delay max_retries messages 0 0

/-- The batch trace as the spec describes the pacing: each message's
resolution (its dispatcher events), then the fixed inter-message delay,
then the next message. -/
def pacedTrace (env : Env) (all : List ExportMessage) (delay : Nat) :
    List ExportMessage → Nat → List Event
  | [], _ => []
  | m :: rest, k =>
    (send_universal_message env m all k).events ++ Event.interSleep delay ::
      pacedTrace env all delay rest (send_universal_message env m all k).next

theorem send_exc_none (env : Env) (message : ExportMessage)
    (all_messages : List ExportMessage) (k : Nat) :
    (send_universal_message env message all_messages k).exc = none := by
  unfold send_universal_message
  split
  · rfl
  · split <;> rfl

theorem attemptCalls_events_apiCall (env : Env) :
    ∀ (calls : List ApiCall) (k : Nat) (ev : Event),
      ev ∈ (attemptCalls env k calls).events → ∃ c, ev = Event.apiCall c := by
  intro calls
  induction calls with
  | nil => intro k ev h; simp [attemptCalls] at h
  | cons c rest ih =>
    intro k ev h
    unfold attemptCalls at h
    rcases hk : env.outcome k with _ | e <;> rw [hk] at h <;> simp at h
    · rcases h with h | h
      · exact ⟨c, h⟩
      · exact ih (k + 1) ev h
    · exact ⟨c, h⟩

theorem send_events_shape (env : Env) (message : ExportMessage)
    (all_messages : List ExportMessage) (k : Nat) (ev : Event) :
    ev ∈ (send_universal_message env message all_messages k).events →
      (∃ c, ev = Event.apiCall c) ∨ ∃ e, ev = Event.logError message.id e := by
  intro h
  unfold send_universal_message at h
  split at h
  · simp at h
  · split at h
    case _ evs next heq =>
      simp at h
      have : ev ∈ (attemptCalls env k (classify message (composedMessage message all_messages))).events := by
        rw [heq]; exact h
      exact Or.inl (attemptCalls_events_apiCall env _ _ ev this)
    case _ evs next e heq =>
      simp at h
      rcases h with h | h
      · have : ev ∈ (attemptCalls env k (classify message (composedMessage message all_messages))).events := by
          rw [heq]; exact h
        exact Or.inl (attemptCalls_events_apiCall env _ _ ev this)
      · exact Or.inr ⟨_, h⟩

theorem classify_ne_nil (message : ExportMessage) (fm : String) :
    classify message fm ≠ [] := by
  unfold classify
  split
  · simp
  split
  · simp
  split
  · simp
  split
  · simp
  split
  · simp
  split <;> simp

theorem processLoop_cons (env : Env) (all : List ExportMessage)
    (d mr : Nat) (m : ExportMessage) (rest : List ExportMessage) (r k : Nat) :
    processLoop env all d mr (m :: rest) r k
      = ((send_universal_message env m all k).events ++ Event.interSleep d ::
          (processLoop env all d mr rest 0 (send_universal_message env m all k).next).1,
         (processLoop env all d mr rest 0 (send_universal_message env m all k).next).2) := by
  have h := send_exc_none env m all k
  rcases hs : send_universal_message env m all k with ⟨evs, next, exc⟩
  rw [hs] at h
  simp at h
  subst h
  simp only [processLoop]
  rw [hs]

theorem processLoop_retries_irrel (env : Env) (all : List ExportMessage) (d mr : Nat) :
    ∀ (msgs : List ExportMessage) (r r' k : Nat),
      processLoop env all d mr msgs r k = processLoop env all d mr msgs r' k := by
  intro msgs
  induction msgs with
  | nil => intro r r' k; rfl
  | cons m rest ih => intro r r' k; rw [processLoop_cons, processLoop_cons]

theorem processLoop_append (env : Env) (all : List ExportMessage) (d mr : Nat) :
    ∀ (msgs1 msgs2 : List ExportMessage) (r k : Nat), ∃ r2 k2,
      (processLoop env all d mr (msgs1 ++ msgs2) r k).1
        = (processLoop env all d mr msgs1 r k).1
          ++ (processLoop env all d mr msgs2 r2 k2).1 := by
  intro msgs1
  induction msgs1 with
  | nil => intro msgs2 r k; exact ⟨r, k, by simp [processLoop]⟩
  | cons m rest ih =>
    intro msgs2 r k
    obtain ⟨r2, k2, h⟩ := ih msgs2 0 (send_universal_message env m all k).next
    refine ⟨r2, k2, ?_⟩
    rw [List.cons_append, processLoop_cons, processLoop_cons]
    simp [h]

theorem processLoop_no_backoff (env : Env) (all : List ExportMessage) (d mr : Nat) :
    ∀ (msgs : List ExportMessage) (r k n : Nat),
      Event.sleep n ∉ (processLoop env all d mr msgs r k).1 := by
  intro msgs
  induction msgs with
  | nil => intro r k n; simp [processLoop]
  | cons m rest ih =>
    intro r k n
    rw [processLoop_cons]
    dsimp only
    intro hmem
    rw [List.mem_append] at hmem
    rcases hmem with h | h
    · rcases send_events_shape env m all k _ h with ⟨c, hc⟩ | ⟨e, he⟩ <;> simp_all
    · rw [List.mem_cons] at h
      rcases h with h | h
      · exact absurd h (by simp)
      · exact ih 0 _ n h

theorem send_logs_raised (env : Env) (message : ExportMessage)
    (all : List ExportMessage) (k : Nat) (e : ApiError)
    (h1 : env.outcome k = ApiOutcome.exn e) (h2 : sizeSkip env message = false) :
    Event.logError message.id e ∈ (send_universal_message env message all k).events := by
  obtain ⟨c, cs, hc⟩ :=
    List.exists_cons_of_ne_nil (classify_ne_nil message (composedMessage message all))
  unfold send_universal_message
  rw [h2]
  simp only [Bool.false_eq_true, if_false, hc]
  have : attemptCalls env k (c :: cs) = ⟨[Event.apiCall c], k + 1, some e⟩ := by
    unfold attemptCalls
    rw [h1]
  rw [this]
  simp

theorem get_replied_message_info_find (rid : Int) :
    ∀ msgs : List ExportMessage,
      get_replied_message_info msgs rid
        = (msgs.find? (fun m => m.id == rid)).map
            (fun m => (m.from_.getD "Unknown Sender", m.text.getD (TextValue.plain ""))) := by
  intro msgs
  induction msgs with
  | nil => rfl
  | cons m rest ih =>
    by_cases h : (m.id == rid) = true
    · simp [get_replied_message_info, List.find?_cons, h]
    · simp [get_replied_message_info, List.find?_cons, h, ih]

/-- A one-message record with plain text, used in concrete runs. -/
def plainMsg : ExportMessage :=
  { emptyMsg with id := 1, text := some (TextValue.plain "hello") }

/-- A second plain-text record, used to watch the batch proceed. -/
def otherMsg : ExportMessage :=
  { emptyMsg with id := 2, text := some (TextValue.plain "second") }

/-- Environment for C1's scenario: the first three API calls raise flood
control demanding a 7 second wait; later calls succeed. -/
def floodEnv : Env :=
  ⟨true, fun _ => false, fun _ => 0,
    fun k => if k < 3 then ApiOutcome.exn (ApiError.retryAfter 7) else ApiOutcome.ok⟩

/-- C1, evaluated on the claim's own scenario (three consecutive
flood-control signals, then success, ceiling 5): the run makes exactly one
API call for the message, the dispatcher's own catch-all logs the
flood-control error against the message id, and the trace holds no
7-second backoff sleep and no retry — not the claimed 3 sleep-and-retry
rounds ending in success. -/
theorem c1_flood_divergence :
    (process_messages floodEnv [plainMsg] 1 5).1
      = [Event.apiCall (ApiCall.sendMessage
            (composedMessage plainMsg [plainMsg]) (some "Markdown")),
         Event.logError 1 (ApiError.retryAfter 7),
         Event.interSleep 1] := by
  rfl

/-- Environment for C2's scenario: every API call times out. -/
def timeoutEnv : Env :=
  ⟨true, fun _ => false, fun _ => 0, fun _ => ApiOutcome.exn ApiError.timedOut⟩

/-- C2, evaluated on the claim's own scenario (timeouts throughout,
ceiling 5, a second message following): the first message is abandoned
after a SINGLE call — no linear-backoff sleep, no five retries — with the
timeout logged by the dispatcher's catch-all, and the batch proceeds to the
second message. -/
theorem c2_timeout_divergence :
    (process_messages timeoutEnv [plainMsg, otherMsg] 1 5).1
      = [Event.apiCall (ApiCall.sendMessage
            (composedMessage plainMsg [plainMsg, otherMsg]) (some "Markdown")),
         Event.logError 1 ApiError.timedOut,
         Event.interSleep 1,
         Event.apiCall (ApiCall.sendMessage
            (composedMessage otherMsg [plainMsg, otherMsg]) (some "Markdown")),
         Event.logError 2 ApiError.timedOut,
         Event.interSleep 1] := by
  rfl

/-- C3: an exception raised while sending (here: any non-flood, non-timeout
error the API raises) is caught, recorded in the error log against the
message's identifier, and the message is abandoned with the dispatcher
returning normally; and the batch is never aborted — the trace of a run
over `msgs1 ++ msgs2` always continues with a full run over `msgs2`. -/
theorem c3_error_containment (env : Env) (msg : ExportMessage)
    (all : List ExportMessage) (k : Nat) (etext : String) (d mr r : Nat)
    (msgs1 msgs2 : List ExportMessage)
    (h1 : env.outcome k = ApiOutcome.exn (ApiError.other etext))
    (h2 : sizeSkip env msg = false) :
    (Event.logError msg.id (ApiError.other etext)
        ∈ (send_universal_message env msg all k).events
      ∧ (send_universal_message env msg all k).exc = none)
    ∧ ∃ r2 k2, (processLoop env all d mr (msgs1 ++ msgs2) r k).1
        = (processLoop env all d mr msgs1 r k).1
          ++ (processLoop env all d mr msgs2 r2 k2).1 :=
  ⟨⟨send_logs_raised env msg all k _ h1 h2, send_exc_none env msg all k⟩,
    processLoop_append env all d mr msgs1 msgs2 r k⟩

/-- Environment whose every API call raises a generic error. -/
def otherErrEnv : Env :=
  ⟨true, fun _ => false, fun _ => 0, fun _ => ApiOutcome.exn (ApiError.other "boom")⟩

theorem c3_error_containment_witness :
    otherErrEnv.outcome 0 = ApiOutcome.exn (ApiError.other "boom")
    ∧ sizeSkip otherErrEnv plainMsg = false
    ∧ Event.logError 1 (ApiError.other "boom")
        ∈ (send_universal_message otherErrEnv plainMsg [plainMsg] 0).events :=
  ⟨rfl, rfl,
    (c3_error_containment otherErrEnv plainMsg [plainMsg] 0 "boom" 1 5 0 [] []
      rfl rfl).1.1⟩

/-- Environment with a 100 MB file everywhere and a non-premium account
(50 MB ceiling); every API call would succeed. -/
def bigFileEnv : Env :=
  ⟨false, fun _ => true, fun _ => 100 * 1048576, fun _ => ApiOutcome.ok⟩

/-- A photo record: the image path sits in the `photo` field and the `file`
field is absent, as in the export format the photo branch reads. -/
def bigPhotoMsg : ExportMessage :=
  { emptyMsg with id := 3, photo := some "big_photo.jpg" }

/-- C4 counterexample: a photo record whose image is 100 MB under a 50 MB
ceiling is NOT skipped — the size guard reads only the `file` field, which
photo records leave empty, so a send-photo attempt is performed. -/
theorem c4_counterexample :
    bigFileEnv.fileSizeBytes "big_photo.jpg"
        > MAX_FILE_SIZE_MB bigFileEnv.premium * 1048576
    ∧ (send_universal_message bigFileEnv bigPhotoMsg [bigPhotoMsg] 0).events
      = [Event.apiCall (ApiCall.sendPhoto "big_photo.jpg"
          (composedMessage bigPhotoMsg [bigPhotoMsg]))] :=
  ⟨by decide, rfl⟩

/-- C4 as amended: the pre-dispatch guard covers exactly the records whose
`file` field is truthy and names an existing file; when that file's size
exceeds the configured ceiling the message is abandoned pre-emptively —
the dispatcher returns with no API call, no error-log write and no raised
error.  Photo records keep their path in the `photo` field and are not
checked. -/
theorem c4_file_size_guard (env : Env) (message : ExportMessage)
    (all : List ExportMessage) (k : Nat) (f : String)
    (hf : message.file = some f) (hne : f ≠ "")
    (hex : env.fileExists f = true)
    (hsz : env.fileSizeBytes f > MAX_FILE_SIZE_MB env.premium * 1048576) :
    send_universal_message env message all k = ⟨[], k, none⟩ := by
  have hskip : sizeSkip env message = true := by
    unfold sizeSkip
    rw [hf]
    simp [hne, hex, hsz]
  simp [send_universal_message, hskip]

/-- A video record whose payload path is in the `file` field. -/
def bigVideoMsg : ExportMessage :=
  { emptyMsg with
    id := 4
    file := some "big.mp4"
    media_type := some "video_file" }

theorem c4_file_size_guard_witness :
    bigVideoMsg.file = some "big.mp4"
    ∧ "big.mp4" ≠ ""
    ∧ bigFileEnv.fileExists "big.mp4" = true
    ∧ bigFileEnv.fileSizeBytes "big.mp4" > MAX_FILE_SIZE_MB bigFileEnv.premium * 1048576
    ∧ send_universal_message bigFileEnv bigVideoMsg [bigVideoMsg] 0 = ⟨[], 0, none⟩ :=
  ⟨rfl, by decide, rfl, by decide,
    c4_file_size_guard bigFileEnv bigVideoMsg [bigVideoMsg] 0 "big.mp4"
      rfl (by decide) rfl (by decide)⟩

theorem processLoop_paced (env : Env) (all : List ExportMessage) (d mr : Nat) :
    ∀ (msgs : List ExportMessage) (r k : Nat),
      (processLoop env all d mr msgs r k).1 = pacedTrace env all d msgs k := by
  intro msgs
  induction msgs with
  | nil => intro r k; rfl
  | cons m rest ih =>
    intro r k
    rw [processLoop_cons]
    dsimp only
    rw [ih]
    rfl

/-- C5: after every message's resolution — successful send or abandonment
alike — the loop emits the fixed inter-message sleep of `delay` seconds
before the next message: the batch trace is exactly the per-message
dispatcher events each followed by `interSleep delay`, for every
environment, ceiling and starting counter (so independently of the
flood-control and timeout backoff branches, which never fire). -/
theorem c5_inter_message_delay :
    ∀ (env : Env) (all : List ExportMessage) (d mr : Nat)
      (msgs : List ExportMessage) (r k : Nat),
      (processLoop env all d mr msgs r k).1 = pacedTrace env all d msgs k
      ∧ (process_messages env msgs d mr).1 = pacedTrace env msgs d msgs 0 :=
  fun env all d mr msgs r k =>
    ⟨processLoop_paced env all d mr msgs r k,
     processLoop_paced env msgs d mr msgs 0 0⟩

/-- C6: the retry counter is zero at the start of every message's
resolution — the continuation after any message runs with the counter
reset to 0 — and the loop's observable behavior is entirely independent of
the incoming counter value, so no message's retry count is influenced by a
preceding message's failures.  The counter is the loop's only threaded
state besides the call index. -/
theorem c6_retry_counter (env : Env) (all : List ExportMessage) (d mr : Nat)
    (m : ExportMessage) (rest msgs : List ExportMessage) (r r' k : Nat) :
    processLoop env all d mr msgs r k = processLoop env all d mr msgs r' k
    ∧ (processLoop env all d mr (m :: rest) r k).1
      = (send_universal_message env m all k).events ++ Event.interSleep d ::
        (processLoop env all d mr rest 0 (send_universal_message env m all k).next).1 :=
  ⟨processLoop_retries_irrel env all d mr msgs r r' k,
   by rw [processLoop_cons]⟩

/-- C7: the classifier emits the actions of the first matching branch in
the precedence photo > video/animation > voice > sticker > poll > location
> text: a record with a truthy photo yields exactly the send-photo action
(in particular no send-poll even when a poll is present); every record
yields one action, except poll records which yield exactly two; and an
unambiguous poll record yields send-poll followed by the status/voter-count
send-text. -/
theorem c7_classifier_precedence (msg : ExportMessage) (fm : String)
    (hp : truthyOptStr msg.photo = true) (_hpoll : msg.poll.isSome = true) :
    classify msg fm = [ApiCall.sendPhoto (msg.photo.getD "") fm]
    ∧ (∀ q opts anon, ApiCall.sendPoll q opts anon ∉ classify msg fm)
    ∧ (∀ (m2 : ExportMessage) (fm2 : String),
        (classify m2 fm2).length = 1
        ∨ ((classify m2 fm2).length = 2 ∧ m2.poll.isSome = true))
    ∧ (∀ (m2 : ExportMessage) (fm2 : String) (p : Poll),
        truthyOptStr m2.photo = false →
        (m2.media_type == some "animation" || m2.media_type == some "video_file") = false →
        (m2.media_type == some "voice_message" && truthyOptStr m2.file) = false →
        (m2.media_type == some "sticker" && truthyOptStr m2.file) = false →
        m2.poll = some p →
        classify m2 fm2
          = [ApiCall.sendPoll (p.question.getD "No question") p.answers true,
             ApiCall.sendMessage (pollStatusText p) none]) := by
  refine ⟨by simp [classify, hp], ?_, ?_, ?_⟩
  · intro q opts anon
    simp [classify, hp]
  · intro m2 fm2
    unfold classify
    split
    · left; rfl
    split
    · left; rfl
    split
    · left; rfl
    split
    · left; rfl
    split
    · rename_i p hpoll2
      right
      exact ⟨rfl, by rw [hpoll2]; rfl⟩
    split
    · left; rfl
    · left; rfl
  · intro m2 fm2 p h1 h2 h3 h4 h5
    simp [classify, h1, h2, h3, h4, h5]

/-- A record carrying both a photo and a poll. -/
def photoPollMsg : ExportMessage :=
  { emptyMsg with
    id := 5
    photo := some "p.jpg"
    poll := some ⟨some "q?", ["a", "b"], some 3, some false⟩ }

theorem c7_classifier_precedence_witness :
    truthyOptStr photoPollMsg.photo = true
    ∧ photoPollMsg.poll.isSome = true
    ∧ classify photoPollMsg "cap" = [ApiCall.sendPhoto "p.jpg" "cap"] :=
  ⟨by decide, rfl,
    (c7_classifier_precedence photoPollMsg "cap" (by decide) rfl).1⟩

/-- A found-but-empty-sender fixture: the replied-to message exists (id 1)
but its sender name is the empty string, which is falsy in Python. -/
def emptySenderMsg : ExportMessage :=
  { emptyMsg with
    id := 1
    from_ := some ""
    text := some (TextValue.plain "hi") }

/-- A message replying to id 1. -/
def replyingMsg : ExportMessage :=
  { emptyMsg with
    id := 2
    from_ := some "Bob"
    reply_to_message_id := some 1
    text := some (TextValue.plain "yo") }

/-- C9 counterexample: with the reply target FOUND (the resolver returns
its sender and text), the composed body nevertheless carries the generic
fallback annotation, not the claimed "This message is a reply to
{sender}: {text}" line, because the code branches on the truthiness of the
sender string rather than on found-ness — an empty sender name falls to
the fallback. -/
theorem c9_counterexample :
    get_replied_message_info [emptySenderMsg, replyingMsg] 1
      = some ("", TextValue.plain "hi")
    ∧ composedMessage replyingMsg [emptySenderMsg, replyingMsg]
      = "Message from Bob\n📅 Sent on: Unknown Date\n" ++
        "This message is a reply to another message.\n\n" ++ "yo"
    ∧ composedMessage replyingMsg [emptySenderMsg, replyingMsg]
      ≠ "Message from Bob\n📅 Sent on: Unknown Date\n" ++
        "This message is a reply to : hi\n\n" ++ "yo" :=
  ⟨rfl, rfl, by decide⟩

/-- C9 as amended: the Reply Resolver returns the first message whose
identifier equals the target, as `(sender default "Unknown Sender", text
default "")`, and `none` when no identifier matches; the composed body is
prefixed with the one-line reply annotation when the resolved sender is a
non-empty string, and with the generic fallback annotation both when the
target is not found and when the resolved sender is the empty (falsy)
string; resolution is a total function and never crashes. -/
theorem c9_reply_resolution (msgs : List ExportMessage) (rid : Int) :
    (get_replied_message_info msgs rid
      = (msgs.find? (fun m => m.id == rid)).map
          (fun m => (m.from_.getD "Unknown Sender", m.text.getD (TextValue.plain ""))))
    ∧ (∀ s t, get_replied_message_info msgs rid = some (s, t) → s ≠ "" →
        replyHeader msgs rid
          = "This message is a reply to " ++ s ++ ": " ++ strOfTextValue t ++ "\n\n")
    ∧ (∀ s t, get_replied_message_info msgs rid = some (s, t) → s = "" →
        replyHeader msgs rid = "This message is a reply to another message.\n\n")
    ∧ (get_replied_message_info msgs rid = none →
        replyHeader msgs rid = "This message is a reply to another message.\n\n") := by
  refine ⟨get_replied_message_info_find rid msgs, ?_, ?_, ?_⟩
  · intro s t h hs
    have hb : (s != "") = true := by simpa using hs
    unfold replyHeader
    rw [h]
    dsimp only
    rw [hb]
    simp
  · intro s t h hs
    subst hs
    unfold replyHeader
    rw [h]
    rfl
  · intro h
    unfold replyHeader
    rw [h]

/-- A resolvable reply target with a non-empty sender. -/
def aliceMsg : ExportMessage :=
  { emptyMsg with
    id := 1
    from_ := some "Alice"
    text := some (TextValue.plain "hi") }

theorem c9_reply_resolution_witness :
    get_replied_message_info [aliceMsg] 1 = some ("Alice", TextValue.plain "hi")
    ∧ "Alice" ≠ ""
    ∧ replyHeader [aliceMsg] 1 = "This message is a reply to Alice: hi\n\n" :=
  ⟨rfl, by decide,
    (c9_reply_resolution [aliceMsg] 1).2.1 "Alice" (TextValue.plain "hi") rfl
      (by decide)⟩

/-- C10: every exception an API call raises inside the dispatcher —
flood-control and timeout signals included — is caught by the dispatcher's
own catch-all: the dispatcher never propagates an exception (`exc = none`
always), it logs the raised error against the message's identifier, and
consequently no sleep-and-retry ever happens in the delivery loop: no
backoff sleep event occurs in any run's trace. -/
theorem c10_dispatcher_catch_all (env : Env) (msg : ExportMessage)
    (all : List ExportMessage) (k : Nat) (e : ApiError)
    (h1 : env.outcome k = ApiOutcome.exn e) (h2 : sizeSkip env msg = false) :
    (send_universal_message env msg all k).exc = none
    ∧ Event.logError msg.id e ∈ (send_universal_message env msg all k).events
    ∧ ∀ (env2 : Env) (all2 : List ExportMessage) (d mr : Nat)
        (msgs : List ExportMessage) (r k2 n : Nat),
        Event.sleep n ∉ (processLoop env2 all2 d mr msgs r k2).1 :=
  ⟨send_exc_none env msg all k, send_logs_raised env msg all k e h1 h2,
    fun env2 all2 d mr msgs r k2 n => processLoop_no_backoff env2 all2 d mr msgs r k2 n⟩

/-- Environment whose every API call raises flood control (wait 9 s). -/
def floodOnceEnv : Env :=
  ⟨true, fun _ => false, fun _ => 0, fun _ => ApiOutcome.exn (ApiError.retryAfter 9)⟩

theorem c10_dispatcher_catch_all_witness :
    floodOnceEnv.outcome 0 = ApiOutcome.exn (ApiError.retryAfter 9)
    ∧ sizeSkip floodOnceEnv plainMsg = false
    ∧ (send_universal_message floodOnceEnv plainMsg [plainMsg] 0).exc = none
    ∧ Event.logError 1 (ApiError.retryAfter 9)
        ∈ (send_universal_message floodOnceEnv plainMsg [plainMsg] 0).events :=
  ⟨rfl, rfl,
    (c10_dispatcher_catch_all floodOnceEnv plainMsg [plainMsg] 0
      (ApiError.retryAfter 9) rfl rfl).1,
    (c10_dispatcher_catch_all floodOnceEnv plainMsg [plainMsg] 0
      (ApiError.retryAfter 9) rfl rfl).2.1⟩
